import Mathlib

/-!
Shallow embedding of the I Musici academy backend (src/backend/server.py).

Conventions used throughout:
* MongoDB collections are Lean lists of structures; db.find_one is List.find?
  (first match), db.update_one updates the first matching document,
  db.delete_many is a filter, db.insert_one appends.
* Python datetimes are modelled as integers (seconds); timedelta(days = d)
  is d * 86400 seconds.  Monetary amounts are modelled as rationals: the
  claims only copy amounts or multiply a small count by a rate, which is
  exact arithmetic in the source as well.
* Enum classes are modelled by their string values, exactly as in the
  source; Python attribute access on an enum member that does not exist
  raises AttributeError, modelled with Except.
-/

namespace Musici

/-- db.update_one semantics: rewrite the first element satisfying p. -/
def updateFirst (p : α → Bool) (f : α → α) : List α → List α
  | [] => []
  | x :: xs => if p x then f x :: xs else x :: updateFirst p f xs

/-- db.delete_one semantics: remove the first element satisfying p,
returning the new list and the deleted count (0 or 1). -/
def deleteFirst (p : α → Bool) : List α → List α × Nat
  | [] => ([], 0)
  | x :: xs =>
    if p x then (xs, 1)
    else
      let r := deleteFirst p xs
      (x :: r.1, r.2)

end Musici

/-! ## Compensation calculation (C1)

Embedding of calculate_teacher_compensation (server.py lines 1387-1457)
together with the AttendanceStatus enum (lines 54-58).  The function body
reads AttendanceStatus.ABSENT and AttendanceStatus.JUSTIFIED; the enum
class defines neither member, so Python raises AttributeError when those
attribute reads are evaluated.  Attribute reads are therefore modelled in
Except, returning the member value when the member exists. -/

namespace Musici.Comp

/-- The AttendanceStatus enum exactly as declared in server.py:
member name paired with its string value. -/
def attendanceStatusMembers : List (String × String) :=
  [("PRESENT", "presente"),
   ("ABSENT_JUSTIFIED", "assente_giustificato"),
   ("ABSENT_UNJUSTIFIED", "assente_non_giustificato"),
   ("MAKEUP", "recupero")]

/-- Python attribute access AttendanceStatus.name.value: AttributeError
when the member is not declared in the enum. -/
def attendanceStatusValue (name : String) : Except String String :=
  match (attendanceStatusMembers.find? (fun m => m.1 == name)) with
  | some m => Except.ok m.2
  | none => Except.error "AttributeError"

/-- One attendance document of db.presenze, restricted to the fields the
compensation endpoint reads. -/
structure AttendanceRecord where
  insegnante_id : String
  data : Int
  stato : String
  recupero_data : Option Int
deriving Repr, DecidableEq

/-- Running tallies of the counting loop. -/
structure CompTally where
  presenti : Nat
  assenti : Nat
  giustificati : Nat
  recuperi : Nat
deriving Repr, DecidableEq

/-- The body of the for-loop over records.  Python evaluates the enum
attribute in each elif condition before comparing, so a record whose
stato is not "presente" forces the read of AttendanceStatus.ABSENT. -/
def classifyRecord (t : CompTally) (r : AttendanceRecord) : Except String CompTally := do
  let present ← attendanceStatusValue "PRESENT"
  if r.stato == present then
    pure { t with presenti := t.presenti + 1 }
  else do
    let absent ← attendanceStatusValue "ABSENT"
    if r.stato == absent then
      pure { t with assenti := t.assenti + 1 }
    else do
      let justified ← attendanceStatusValue "JUSTIFIED"
      if r.stato == justified then
        if r.recupero_data.isSome then
          pure { t with giustificati := t.giustificati + 1, recuperi := t.recuperi + 1 }
        else
          pure { t with giustificati := t.giustificati + 1 }
      else
        pure t

/-- Result of the endpoint: the dettaglio counters, the rate, the payable
lesson count and the total. -/
structure CompResult where
  presenti : Nat
  assenti : Nat
  giustificati : Nat
  recuperi : Nat
  quota_per_presenza : ℚ
  lezioni_pagate : Nat
  totale_compenso : ℚ
deriving Repr, DecidableEq

/-- calculate_teacher_compensation: rate lookup with the 30.0 default,
the inclusive date-range query over db.presenze, the counting loop, and
totale = (presenti + assenti + recuperi) * quota.  The Except error is
the AttributeError raised inside the loop. -/
def calculate_teacher_compensation (compensi : List (String × ℚ))
    (presenze : List AttendanceRecord)
    (insegnante_id : String) (from_date to_date : Int) :
    Except String CompResult := do
  let quota := match compensi.find? (fun c => c.1 == insegnante_id) with
    | some c => c.2
    | none => (30 : ℚ)
  let records := presenze.filter
    (fun r => r.insegnante_id == insegnante_id &&
      from_date ≤ r.data && r.data ≤ to_date)
  let t ← records.foldlM classifyRecord ⟨0, 0, 0, 0⟩
  let lezioni_pagate := t.presenti + t.assenti + t.recuperi
  pure { presenti := t.presenti, assenti := t.assenti,
         giustificati := t.giustificati, recuperi := t.recuperi,
         quota_per_presenza := quota,
         lezioni_pagate := lezioni_pagate,
         totale_compenso := (lezioni_pagate : ℚ) * quota }

end Musici.Comp

/-! ## Authentication gate (C7, C10)

Embedding of get_current_user (server.py lines 460-486) and require_auth
(lines 488-493).  The presented token is Option String (None when neither
cookie nor bearer header carries one); sessions and users are the
db.sessioni and db.utenti collections. -/

namespace Musici.Auth

/-- One db.sessioni document.  data_scadenza is optional: the source
guards the expiry check with `if scadenza:`. -/
structure Session where
  token_sessione : String
  utente_id : String
  data_scadenza : Option Int
deriving Repr, DecidableEq

/-- One db.utenti document, restricted to the fields the gate reads.
attivo is read with user.get("attivo", False). -/
structure User where
  id : String
  attivo : Bool
  ruolo : String
deriving Repr, DecidableEq

/-- get_current_user: token lookup, lazy expiry check (expired when
data_scadenza ≤ now), then the user must exist and be active. -/
def get_current_user (now : Int) (token : Option String)
    (sessioni : List Session) (utenti : List User) : Option User :=
  match token with
  | none => none
  | some t =>
    match sessioni.find? (fun s => s.token_sessione == t) with
    | none => none
    | some s =>
      let expired : Bool := match s.data_scadenza with
        | some scad => scad ≤ now
        | none => false
      if expired then none
      else
        match utenti.find? (fun u => u.id == s.utente_id) with
        | none => none
        | some u => if u.attivo then some u else none

/-- require_auth: 401 when get_current_user yields no user. -/
def require_auth (now : Int) (token : Option String)
    (sessioni : List Session) (utenti : List User) : Except Nat User :=
  match get_current_user now token sessioni utenti with
  | none => Except.error 401
  | some u => Except.ok u

end Musici.Auth

/-! ## Payment-request workflow (C2, C5)

Embedding of confirm_payment_request (server.py lines 1954-1982),
approve_payment_request (lines 1984-2028) and reject_payment_request
(lines 2030-2062) over the db.richieste_pagamento, db.pagamenti and
db.notifiche collections.  HTTP errors are Except.error with the status
code (404 request not found, 403 not the owner); none of the three
handlers inspects the current stato of the request before updating it. -/

namespace Musici.Req

/-- The PaymentRequestStatus enum values (server.py lines 330-334). -/
def PENDING : String := "in_attesa"

def CONFIRMED : String := "confermato"

def APPROVED : String := "approvato"

def REJECTED : String := "rifiutato"

/-- One db.richieste_pagamento document.  The optional fields are keys
added by later $set updates. -/
structure PaymentRequest where
  id : String
  utente_id : String
  importo : ℚ
  causale : String
  scadenza : Int
  note : Option String
  stato : String
  notification_id : Option String
  data_conferma_allievo : Option Int
  note_allievo : Option String
  data_approvazione_admin : Option Int
  note_admin : Option String
deriving Repr, DecidableEq

/-- One db.pagamenti document as written by approve_payment_request. -/
structure Payment where
  id : String
  utente_id : String
  tipo : String
  importo : ℚ
  descrizione : String
  data_scadenza : Int
  stato : String
  data_pagamento : Option Int
  visibile_utente : Bool
  data_creazione : Int
deriving Repr, DecidableEq

/-- One db.notifiche document, restricted to what the handlers touch. -/
structure Notification where
  id : String
  titolo : String
  messaggio : String
deriving Repr, DecidableEq

/-- The three collections the workflow reads and writes. -/
structure Store where
  richieste : List PaymentRequest
  pagamenti : List Payment
  notifiche : List Notification
deriving Repr, DecidableEq

/-- confirm_payment_request: owner-only, unconditional transition to
CONFIRMED with confirmation timestamp and student note. -/
def confirm_payment_request (request_id : String) (current_user_id : String)
    (note_allievo : String) (now : Int) (s : Store) : Except Nat Store :=
  match s.richieste.find? (fun r => r.id == request_id) with
  | none => Except.error 404
  | some payment_request =>
    if payment_request.utente_id ≠ current_user_id then Except.error 403
    else
      let richieste := Musici.updateFirst (fun r => r.id == request_id)
        (fun r => { r with stato := CONFIRMED,
                           data_conferma_allievo := some now,
                           note_allievo := some note_allievo })
        s.richieste
      Except.ok { s with richieste := richieste }

/-- approve_payment_request: admin-only (authorization is outside this
model); unconditional transition to APPROVED, then insert_one of a new
Payment built from the request, then the notification text update. -/
def approve_payment_request (request_id : String) (new_payment_id : String)
    (now : Int) (s : Store) : Except Nat (Store × String) :=
  match s.richieste.find? (fun r => r.id == request_id) with
  | none => Except.error 404
  | some payment_request =>
    let richieste := Musici.updateFirst (fun r => r.id == request_id)
      (fun r => { r with stato := APPROVED,
                         data_approvazione_admin := some now })
      s.richieste
    let payment : Payment :=
      { id := new_payment_id,
        utente_id := payment_request.utente_id,
        tipo := "mensile",
        importo := payment_request.importo,
        descrizione := payment_request.causale,
        data_scadenza := payment_request.scadenza,
        stato := "pagato",
        data_pagamento := some now,
        visibile_utente := true,
        data_creazione := now }
    let pagamenti := s.pagamenti ++ [payment]
    let notifiche := match payment_request.notification_id with
      | some nid =>
        Musici.updateFirst (fun n => n.id == nid)
          (fun n => { n with titolo := "Pagamento Approvato",
                             messaggio := "Il tuo pagamento e stato approvato" })
          s.notifiche
      | none => s.notifiche
    Except.ok ({ richieste := richieste, pagamenti := pagamenti,
                 notifiche := notifiche }, payment.id)

/-- reject_payment_request: admin-only (authorization is outside this
model); unconditional transition to REJECTED recording the reason, then
the notification text update. -/
def reject_payment_request (request_id : String) (motivo : String)
    (s : Store) : Except Nat Store :=
  match s.richieste.find? (fun r => r.id == request_id) with
  | none => Except.error 404
  | some payment_request =>
    let richieste := Musici.updateFirst (fun r => r.id == request_id)
      (fun r => { r with stato := REJECTED, note_admin := some motivo })
      s.richieste
    let notifiche := match payment_request.notification_id with
      | some nid =>
        Musici.updateFirst (fun n => n.id == nid)
          (fun n => { n with titolo := "Pagamento Rifiutato",
                             messaggio := "Il pagamento e stato rifiutato. Motivo: " ++ motivo })
          s.notifiche
      | none => s.notifiche
    Except.ok { s with richieste := richieste, notifiche := notifiche }

end Musici.Req

/-! ## Monthly payment generation (C3)

Embedding of create_monthly_payments (server.py lines 1502-1562).  Due
dates are kept as their ISO strings because the endpoint only builds the
string mese ++ "-07T23:59:59" and parses it once; the duplicate guard is
the Mongo query on utente_id, tipo "mensile" and a $regex on descrizione
with the pattern mese.  For a YYYY-MM month string the pattern has no
regex metacharacters, so the $regex match is substring containment. -/

namespace Musici.Monthly

/-- Substring containment of needle in hay, the meaning of the $regex
duplicate guard for a plain YYYY-MM pattern. -/
def substrB (needle hay : String) : Bool :=
  (List.range (hay.toList.length + 1)).any
    (fun i => ((hay.toList.drop i).take needle.toList.length) == needle.toList)

/-- One db.utenti document, restricted to the generation query. -/
structure Student where
  id : String
  ruolo : String
  attivo : Bool
deriving Repr, DecidableEq

/-- One db.pagamenti document as read and written by the endpoint. -/
structure MPayment where
  id : String
  utente_id : String
  tipo : String
  importo : ℚ
  descrizione : String
  data_scadenza : String
  stato : String
  data_pagamento : Option Int
  tolleranza_giorni : Int
  visibile_utente : Bool
  data_creazione : Int
deriving Repr, DecidableEq

/-- PAYMENT_TOLERANCE_DAYS (server.py line 86). -/
def PAYMENT_TOLERANCE_DAYS : Int := 0

/-- The duplicate guard: db.pagamenti.find_one on the student id, the
monthly type and a descrizione matching $regex mese. -/
def existsMonthlyFor (mese : String) (student_id : String)
    (pagamenti : List MPayment) : Bool :=
  (pagamenti.find? (fun p =>
    p.utente_id == student_id && p.tipo == "mensile" &&
      substrB mese p.descrizione)).isSome

/-- The payment document inserted for one student. -/
def newMonthlyPayment (importo : ℚ) (mese descrizione : String)
    (now : Int) (pid student_id : String) : MPayment :=
  { id := pid,
    utente_id := student_id,
    tipo := "mensile",
    importo := importo,
    descrizione := descrizione,
    data_scadenza := mese ++ "-07T23:59:59",
    stato := "in_attesa",
    data_pagamento := none,
    tolleranza_giorni := PAYMENT_TOLERANCE_DAYS,
    visibile_utente := true,
    data_creazione := now }

/-- The body of the per-student loop: the duplicate-guard find_one, then
the guarded insert_one, carrying (created_count, pagamenti). -/
def monthlyStep (importo : ℚ) (mese descrizione : String) (now : Int)
    (mkId : Nat → String) (acc : Nat × List MPayment) (student : Student) :
    Nat × List MPayment :=
  if existsMonthlyFor mese student.id acc.2 then acc
  else (acc.1 + 1,
        acc.2 ++ [newMonthlyPayment importo mese descrizione now
                    (mkId acc.1) student.id])

/-- create_monthly_payments: the defaulted description, the active-student
query, and the per-student guarded insert.  mkId models uuid4 (one fresh
id per insert); the fold checks each student against the store as grown
so far, exactly as the source loop re-queries the database on every
iteration. -/
def create_monthly_payments (importo : ℚ) (mese : String)
    (descrizioneOpt : Option String) (now : Int) (mkId : Nat → String)
    (utenti : List Student) (pagamenti : List MPayment) :
    Nat × List MPayment :=
  let descrizione := match descrizioneOpt with
    | some d => d
    | none => "Quota mensile " ++ mese
  let students := utenti.filter (fun u => u.ruolo == "allievo" && u.attivo)
  students.foldl (monthlyStep importo mese descrizione now mkId) (0, pagamenti)

end Musici.Monthly

/-! ## Overdue sweep (C4)

Embedding of update_overdue_payments (server.py lines 1461-1500): the
snapshot query selects pending payments whose data_scadenza is strictly
before today; for each, tolerance days (payment.get with the global
default) are added to the due date and the status is set to "scaduto"
when today is strictly past the tolerant due date.  Each write is a
db.update_one keyed on the payment id. -/

namespace Musici.Overdue

/-- One db.pagamenti document, restricted to what the sweep touches.
tolleranza_giorni is optional: the source reads it with .get and the
global default. -/
structure OPayment where
  id : String
  stato : String
  data_scadenza : Int
  tolleranza_giorni : Option Int
deriving Repr, DecidableEq

/-- PAYMENT_TOLERANCE_DAYS (server.py line 86). -/
def PAYMENT_TOLERANCE_DAYS : Int := 0

/-- The snapshot query: stato "in_attesa" and data_scadenza < today. -/
def pendingPastDue (today : Int) (p : OPayment) : Bool :=
  p.stato == "in_attesa" && decide (p.data_scadenza < today)

/-- today > data_scadenza + timedelta(days = tolerance). -/
def pastTolerance (today : Int) (p : OPayment) : Bool :=
  let tolerance := match p.tolleranza_giorni with
    | some t => t
    | none => PAYMENT_TOLERANCE_DAYS
  decide (today > p.data_scadenza + 86400 * tolerance)

/-- The $set of the sweep: stato becomes "scaduto". -/
def setScaduto (q : OPayment) : OPayment :=
  { q with stato := "scaduto" }

/-- The body of the per-payment loop: the tolerance test, then the
conditional db.update_one keyed on the payment id. -/
def sweepStep (today : Int) (acc : Nat × List OPayment) (payment : OPayment) :
    Nat × List OPayment :=
  if pastTolerance today payment then
    (acc.1 + 1,
     Musici.updateFirst (fun q => q.id == payment.id) setScaduto acc.2)
  else acc

/-- update_overdue_payments: fold of the per-payment conditional
db.update_one over the snapshot, returning (updated_count, store).  The
source fetches the snapshot with .to_list(1000), so at most the first
1000 documents matching the query are processed in one run. -/
def update_overdue_payments (today : Int) (pagamenti : List OPayment) :
    Nat × List OPayment :=
  let snapshot := (pagamenti.filter (pendingPastDue today)).take 1000
  snapshot.foldl (sweepStep today) (0, pagamenti)

/-- A payment the sweep will transition: matched by the snapshot query
and past its tolerant due date. -/
def eligible (today : Int) (p : OPayment) : Bool :=
  pendingPastDue today p && pastTolerance today p

/-- The effect of one full sweep on one stored payment. -/
def mark (today : Int) (q : OPayment) : OPayment :=
  if eligible today q then setScaduto q else q

end Musici.Overdue

/-! ## Lesson slots (C6)

Embedding of create_lesson_slot (server.py lines 2201-2251) and
update_lesson_slot (lines 2253-2296).  Slot times are integers in
minutes; timedelta(minutes = durata) is + durata.  The overlap query of
create_lesson_slot matches a non-cancelled slot of the same teacher
whose data lies in [overlap_start, overlap_end); update_lesson_slot
performs no overlap query at all. -/

namespace Musici.Slots

/-- One db.slot_lezioni document. -/
structure LessonSlot where
  id : String
  insegnante_id : String
  strumento : String
  data : Int
  durata : Int
  stato : String
  allievo_id : Option String
deriving Repr, DecidableEq

/-- The time ranges [data, data + durata) of two slots intersect: the
overlap relation of the claimed invariant. -/
def slotsOverlap (a b : LessonSlot) : Bool :=
  decide (a.data < b.data + b.durata) && decide (b.data < a.data + a.durata)

/-- The claimed invariant: no teacher has two non-cancelled slots with
overlapping time ranges. -/
def noTeacherOverlap (slots : List LessonSlot) : Prop :=
  ∀ a ∈ slots, ∀ b ∈ slots, a.id ≠ b.id →
    a.insegnante_id = b.insegnante_id →
    a.stato ≠ "annullato" → b.stato ≠ "annullato" →
    slotsOverlap a b = false

instance (slots : List LessonSlot) : Decidable (noTeacherOverlap slots) := by
  unfold noTeacherOverlap
  infer_instance

/-- The overlap query of create_lesson_slot: a non-cancelled slot of the
teacher whose start time falls inside the new range. -/
def overlapQuery (insegnante_id : String) (overlap_start overlap_end : Int)
    (s : LessonSlot) : Bool :=
  s.insegnante_id == insegnante_id && !(s.stato == "annullato") &&
    decide (overlap_start ≤ s.data) && decide (s.data < overlap_end)

/-- create_lesson_slot: teacher existence check, the overlap query, then
the insert of an available slot.  Errors: 404 unknown teacher, 400 when
the query finds an existing slot. -/
def create_lesson_slot (insegnante_id strumento : String)
    (slot_datetime durata : Int) (new_id : String)
    (teacher_ids : List String) (slots : List LessonSlot) :
    Except Nat (List LessonSlot) :=
  if (teacher_ids.find? (fun t => t == insegnante_id)).isNone then
    Except.error 404
  else
    let overlap_start := slot_datetime
    let overlap_end := slot_datetime + durata
    match slots.find? (overlapQuery insegnante_id overlap_start overlap_end) with
    | some _ => Except.error 400
    | none =>
      Except.ok (slots ++
        [{ id := new_id, insegnante_id := insegnante_id,
           strumento := strumento, data := slot_datetime, durata := durata,
           stato := "disponibile", allievo_id := none }])

/-- The optional fields of a LessonSlotUpdate body. -/
structure LessonSlotUpdate where
  insegnante_id : Option String
  strumento : Option String
  dataOra : Option Int
  durata : Option Int
deriving Repr, DecidableEq

/-- update_lesson_slot: field-by-field $set with a teacher existence
check for a new insegnante_id, and no overlap check of any kind. -/
def update_lesson_slot (slot_id : String) (body : LessonSlotUpdate)
    (teacher_ids : List String) (slots : List LessonSlot) :
    Except Nat (List LessonSlot) :=
  match slots.find? (fun s => s.id == slot_id) with
  | none => Except.error 404
  | some _ =>
    match body.insegnante_id with
    | some tid =>
      if (teacher_ids.find? (fun t => t == tid)).isNone then Except.error 404
      else Except.ok (applyUpdate slot_id body slots)
    | none => Except.ok (applyUpdate slot_id body slots)
where
  applyUpdate (slot_id : String) (body : LessonSlotUpdate)
      (slots : List LessonSlot) : List LessonSlot :=
    Musici.updateFirst (fun s => s.id == slot_id)
      (fun s =>
        let s := match body.insegnante_id with
          | some tid => { s with insegnante_id := tid }
          | none => s
        let s := match body.strumento with
          | some st => { s with strumento := st }
          | none => s
        let s := match body.dataOra with
          | some d => { s with data := d }
          | none => s
        match body.durata with
          | some du => { s with durata := du }
          | none => s)
      slots

end Musici.Slots

/-! ## Payment updates (C8)

Embedding of update_payment (server.py lines 1837-1871) and
update_payment_status (lines 2682-2705) over db.pagamenti. -/

namespace Musici.PayUpd

/-- One db.pagamenti document with the fields either endpoint touches.
data_aggiornamento is a key only update_payment_status writes. -/
structure Payment where
  id : String
  utente_id : String
  tipo : String
  importo : ℚ
  descrizione : String
  data_scadenza : Int
  stato : String
  data_pagamento : Option Int
  data_aggiornamento : Option Int
  visibile_utente : Bool
deriving Repr, DecidableEq

/-- The optional fields of an update_payment request body. -/
structure UpdateBody where
  importo : Option ℚ
  descrizione : Option String
  data_scadenza : Option Int
  stato : Option String
  visibile_utente : Option Bool
deriving Repr, DecidableEq

/-- The $set document built by update_payment applied to one payment:
each present body field overwrites, and a stato of "pagato" also stamps
data_pagamento with now. -/
def applyBody (body : UpdateBody) (now : Int) (p : Payment) : Payment :=
  let p := match body.importo with
    | some v => { p with importo := v }
    | none => p
  let p := match body.descrizione with
    | some v => { p with descrizione := v }
    | none => p
  let p := match body.data_scadenza with
    | some v => { p with data_scadenza := v }
    | none => p
  let p := match body.stato with
    | some v =>
      if v == "pagato" then
        { p with stato := v, data_pagamento := some now }
      else
        { p with stato := v }
    | none => p
  match body.visibile_utente with
    | some v => { p with visibile_utente := v }
    | none => p

/-- update_payment: 404 when the id has no document, otherwise the $set
update on the first matching document, returning the re-read payment. -/
def update_payment (payment_id : String) (body : UpdateBody) (now : Int)
    (pagamenti : List Payment) : Except Nat (List Payment × Option Payment) :=
  match pagamenti.find? (fun p => p.id == payment_id) with
  | none => Except.error 404
  | some _ =>
    let updated := Musici.updateFirst (fun p => p.id == payment_id)
      (applyBody body now) pagamenti
    Except.ok (updated, updated.find? (fun p => p.id == payment_id))

/-- The update document of update_payment_status: the new stato, a
data_aggiornamento stamp, and a data_pagamento stamp exactly when the
status becomes "pagato" and the stored status was not already "pagato". -/
def applyStatus (stato : String) (was : String) (now : Int) (p : Payment) : Payment :=
  let p := { p with stato := stato, data_aggiornamento := some now }
  if stato == "pagato" && !(was == "pagato") then
    { p with data_pagamento := some now }
  else p

/-- update_payment_status: 400 on a status outside the allowed list, 404
when the id has no document, otherwise the $set update. -/
def update_payment_status (payment_id : String) (stato : String) (now : Int)
    (pagamenti : List Payment) : Except Nat (List Payment) :=
  let valid_statuses := ["in_attesa", "pagato", "scaduto", "annullato"]
  if (valid_statuses.find? (fun v => v == stato)).isNone then
    Except.error 400
  else
    match pagamenti.find? (fun p => p.id == payment_id) with
    | none => Except.error 404
    | some payment =>
      Except.ok (Musici.updateFirst (fun p => p.id == payment_id)
        (applyStatus stato payment.stato now) pagamenti)

end Musici.PayUpd

/-! ## User deletion (C9)

Embedding of delete_user (server.py lines 926-941): delete_one on
db.utenti (404 when deleted_count is 0), then delete_many keyed on
utente_id over db.sessioni, db.accesso_amministrazione,
db.allievi_dettaglio and db.insegnanti_dettaglio.  db.presenze and
db.pagamenti are never touched by the handler. -/

namespace Musici.Users

/-- One db.utenti document. -/
structure DUser where
  id : String
  email : String
  ruolo : String
  attivo : Bool
deriving Repr, DecidableEq

/-- A row of any of the per-user side collections, keyed by utente_id. -/
structure UserRow where
  utente_id : String
  payload : String
deriving Repr, DecidableEq

/-- The collections delete_user reads or could touch.  presenze and
pagamenti are included to state the frame condition. -/
structure Store where
  utenti : List DUser
  sessioni : List UserRow
  accesso_amministrazione : List UserRow
  allievi_dettaglio : List UserRow
  insegnanti_dettaglio : List UserRow
  presenze : List UserRow
  pagamenti : List UserRow
deriving Repr, DecidableEq

/-- delete_user: delete_one on utenti, NotFound when nothing was
deleted, then the four delete_many cleanups; presenze and pagamenti are
left as they are. -/
def delete_user (user_id : String) (s : Store) : Except Nat Store :=
  let r := Musici.deleteFirst (fun u => u.id == user_id) s.utenti
  if r.2 == 0 then Except.error 404
  else
    Except.ok
      { utenti := r.1,
        sessioni := s.sessioni.filter (fun x => !(x.utente_id == user_id)),
        accesso_amministrazione :=
          s.accesso_amministrazione.filter (fun x => !(x.utente_id == user_id)),
        allievi_dettaglio :=
          s.allievi_dettaglio.filter (fun x => !(x.utente_id == user_id)),
        insegnanti_dettaglio :=
          s.insegnanti_dettaglio.filter (fun x => !(x.utente_id == user_id)),
        presenze := s.presenze,
        pagamenti := s.pagamenti }

end Musici.Users

/-! ## General lemmas about the store primitives -/

namespace Musici

theorem updateFirst_nil (p : α → Bool) (f : α → α) : updateFirst p f [] = [] := rfl

theorem updateFirst_cons (p : α → Bool) (f : α → α) (x : α) (xs : List α) :
    updateFirst p f (x :: xs) =
      if p x then f x :: xs else x :: updateFirst p f xs := rfl

/-- If no element satisfies p, updateFirst is the identity. -/
theorem updateFirst_of_not_mem (p : α → Bool) (f : α → α) (l : List α)
    (h : ∀ x ∈ l, p x = false) : updateFirst p f l = l := by
  induction l with
  | nil => rfl
  | cons x xs ih =>
    rw [updateFirst_cons, h x (List.mem_cons_self x xs)]
    simp only [Bool.false_eq_true, if_false]
    rw [ih (fun y hy => h y (List.mem_cons_of_mem x hy))]

/-- find? after updateFirst with an update that preserves the predicate:
the first match is rewritten by f. -/
theorem find?_updateFirst (p : α → Bool) (f : α → α)
    (hf : ∀ a, p a → p (f a)) (l : List α) :
    (updateFirst p f l).find? p = (l.find? p).map f := by
  induction l with
  | nil => rfl
  | cons x xs ih =>
    rw [updateFirst_cons]
    by_cases hx : p x
    · rw [if_pos hx, List.find?_cons_of_pos _ hx, List.find?_cons_of_pos _ (hf x hx)]
      rfl
    · rw [if_neg hx, List.find?_cons_of_neg _ hx, List.find?_cons_of_neg _ hx, ih]

end Musici

/-! ## Claim theorems -/

namespace Musici.Comp

/-- C1: the claim's own scenario — rate 30.0 and three in-period records
(present, unjustified absence, justified absence without makeup) — does
not return paidLessonCount = 2 and totalAmount = 60.0: the counting loop
reads the undeclared enum members AttendanceStatus.ABSENT and
AttendanceStatus.JUSTIFIED, so the very first non-present record raises
AttributeError and the endpoint fails instead of answering. -/
theorem c1_compensation_raises_attribute_error :
    calculate_teacher_compensation [("t1", (30 : ℚ))]
      [{ insegnante_id := "t1", data := 10, stato := "presente",
         recupero_data := none },
       { insegnante_id := "t1", data := 20,
         stato := "assente_non_giustificato", recupero_data := none },
       { insegnante_id := "t1", data := 30,
         stato := "assente_giustificato", recupero_data := none }]
      "t1" 0 100 = Except.error "AttributeError" := by
  rfl

end Musici.Comp

namespace Musici.Auth

/-- C7: a presented session token whose stored expiry is at or before
the current time behaves exactly like presenting no token: session
resolution yields none in both cases and require_auth answers 401 in
both cases. -/
theorem c7_expired_token_equals_no_token
    (now : Int) (t : String) (sessioni : List Session) (utenti : List User)
    (s : Session) (scad : Int)
    (hfind : sessioni.find? (fun x => x.token_sessione == t) = some s)
    (hscad : s.data_scadenza = some scad) (hexp : scad ≤ now) :
    get_current_user now (some t) sessioni utenti = none ∧
    get_current_user now none sessioni utenti = none ∧
    require_auth now (some t) sessioni utenti = Except.error 401 ∧
    require_auth now none sessioni utenti = Except.error 401 := by
  have h1 : get_current_user now (some t) sessioni utenti = none := by
    simp only [get_current_user, hfind, hscad, decide_eq_true hexp]
    simp
  have h2 : get_current_user now none sessioni utenti = none := rfl
  refine ⟨h1, h2, ?_, ?_⟩
  · simp only [require_auth, h1]
  · simp only [require_auth, h2]

/-- C7 witness: a concrete store with a session expired at time 5,
queried at time 10. -/
theorem c7_expired_token_equals_no_token_witness :
    get_current_user 10 (some "tok")
        [{ token_sessione := "tok", utente_id := "u1", data_scadenza := some 5 }]
        [{ id := "u1", attivo := true, ruolo := "allievo" }] = none ∧
    require_auth 10 (some "tok")
        [{ token_sessione := "tok", utente_id := "u1", data_scadenza := some 5 }]
        [{ id := "u1", attivo := true, ruolo := "allievo" }] = Except.error 401 := by
  have h := c7_expired_token_equals_no_token 10 "tok"
    [{ token_sessione := "tok", utente_id := "u1", data_scadenza := some 5 }]
    [{ id := "u1", attivo := true, ruolo := "allievo" }]
    { token_sessione := "tok", utente_id := "u1", data_scadenza := some 5 }
    5 rfl rfl (by decide)
  exact ⟨h.1, h.2.2.1⟩

/-- C10: with a valid, unexpired session, a user row that is absent or
has attivo = false makes session resolution yield none and require_auth
answer 401: disabling a user invalidates that user's live sessions at
the gate. -/
theorem c10_inactive_user_session_rejected
    (now : Int) (t : String) (sessioni : List Session) (utenti : List User)
    (s : Session)
    (hfind : sessioni.find? (fun x => x.token_sessione == t) = some s)
    (hvalid : s.data_scadenza = none ∨
      ∃ scad, s.data_scadenza = some scad ∧ now < scad)
    (huser : utenti.find? (fun u => u.id == s.utente_id) = none ∨
      ∃ u, utenti.find? (fun u => u.id == s.utente_id) = some u ∧
        u.attivo = false) :
    get_current_user now (some t) sessioni utenti = none ∧
    require_auth now (some t) sessioni utenti = Except.error 401 := by
  have h1 : get_current_user now (some t) sessioni utenti = none := by
    have hexp : (match s.data_scadenza with
        | some scad => decide (scad ≤ now)
        | none => false) = false := by
      rcases hvalid with h | ⟨scad, hs, hlt⟩
      · rw [h]
      · rw [hs]
        simpa using not_le_of_lt hlt
    rcases huser with hu | ⟨u, hu, hatt⟩
    · simp only [get_current_user, hfind, hexp, hu]
      simp
    · simp only [get_current_user, hfind, hexp, hu, hatt]
      simp
  exact ⟨h1, by simp only [require_auth, h1]⟩

/-- C10 witness: a live session at time 10 expiring at 100, owned by a
user whose attivo flag is false. -/
theorem c10_inactive_user_session_rejected_witness :
    get_current_user 10 (some "tok")
        [{ token_sessione := "tok", utente_id := "u1", data_scadenza := some 100 }]
        [{ id := "u1", attivo := false, ruolo := "allievo" }] = none ∧
    require_auth 10 (some "tok")
        [{ token_sessione := "tok", utente_id := "u1", data_scadenza := some 100 }]
        [{ id := "u1", attivo := false, ruolo := "allievo" }] = Except.error 401 :=
  c10_inactive_user_session_rejected 10 "tok"
    [{ token_sessione := "tok", utente_id := "u1", data_scadenza := some 100 }]
    [{ id := "u1", attivo := false, ruolo := "allievo" }]
    { token_sessione := "tok", utente_id := "u1", data_scadenza := some 100 }
    rfl (Or.inr ⟨100, rfl, by decide⟩)
    (Or.inr ⟨{ id := "u1", attivo := false, ruolo := "allievo" }, rfl, rfl⟩)

end Musici.Auth

namespace Musici.Req

/-- C2 counterexample: rejecting a request that is already in the
terminal state "approvato" does not signal InvalidStateTransition — the
handler answers ok and overwrites the state with "rifiutato". -/
theorem c2_reject_after_approved_succeeds :
    reject_payment_request "r1" "late"
      { richieste := [{ id := "r1", utente_id := "u1", importo := 50,
                        causale := "quota", scadenza := 100, note := none,
                        stato := "approvato", notification_id := none,
                        data_conferma_allievo := none, note_allievo := none,
                        data_approvazione_admin := some 1, note_admin := none }],
        pagamenti := [], notifiche := [] } =
      Except.ok
        { richieste := [{ id := "r1", utente_id := "u1", importo := 50,
                          causale := "quota", scadenza := 100, note := none,
                          stato := "rifiutato", notification_id := none,
                          data_conferma_allievo := none, note_allievo := none,
                          data_approvazione_admin := some 1,
                          note_admin := some "late" }],
          pagamenti := [], notifiche := [] } ∧
    "rifiutato" ≠ "approvato" := by
  exact ⟨rfl, by decide⟩

/-- C2 amended: the payment-request handlers enforce no state machine at
all: whatever the stored stato — including the terminal states
"approvato" and "rifiutato" — reject answers ok and overwrites the stato
with "rifiutato", approve answers ok and overwrites it with "approvato",
and confirm (called by the owner) answers ok and overwrites it with
"confermato"; no InvalidStateTransition is ever signalled and the state
is not left unchanged. -/
theorem c2_transitions_always_overwrite
    (s : Store) (request_id motivo note new_payment_id cuid : String)
    (now : Int) (req : PaymentRequest)
    (hfind : s.richieste.find? (fun r => r.id == request_id) = some req) :
    ((reject_payment_request request_id motivo s).toOption.map
        (fun s2 => (s2.richieste.find? (fun r => r.id == request_id)).map
          PaymentRequest.stato) = some (some REJECTED)) ∧
    ((approve_payment_request request_id new_payment_id now s).toOption.map
        (fun x => (x.1.richieste.find? (fun r => r.id == request_id)).map
          PaymentRequest.stato) = some (some APPROVED)) ∧
    (req.utente_id = cuid →
      (confirm_payment_request request_id cuid note now s).toOption.map
        (fun s2 => (s2.richieste.find? (fun r => r.id == request_id)).map
          PaymentRequest.stato) = some (some CONFIRMED)) := by
  refine ⟨?_, ?_, fun howner => ?_⟩
  · simp only [reject_payment_request, hfind, Except.toOption, Option.map_some']
    rw [Musici.find?_updateFirst (fun r => r.id == request_id)
      (fun r => { r with stato := REJECTED, note_admin := some motivo })
      (fun a ha => ha) s.richieste, hfind]
    rfl
  · simp only [approve_payment_request, hfind, Except.toOption, Option.map_some']
    rw [Musici.find?_updateFirst (fun r => r.id == request_id)
      (fun r => { r with stato := APPROVED, data_approvazione_admin := some now })
      (fun a ha => ha) s.richieste, hfind]
    rfl
  · simp only [confirm_payment_request, hfind, howner, ne_eq, not_true_eq_false,
      if_false, Except.toOption, Option.map_some']
    rw [Musici.find?_updateFirst (fun r => r.id == request_id)
      (fun r => { r with stato := CONFIRMED, data_conferma_allievo := some now,
                         note_allievo := some note })
      (fun a ha => ha) s.richieste, hfind]
    rfl

/-- C2 witness: the amended behaviour at a concrete store holding one
request already in the terminal state "approvato". -/
theorem c2_transitions_always_overwrite_witness :
    ((reject_payment_request "r1" "late"
        { richieste := [{ id := "r1", utente_id := "u1", importo := 50,
                          causale := "quota", scadenza := 100, note := none,
                          stato := "approvato", notification_id := none,
                          data_conferma_allievo := none, note_allievo := none,
                          data_approvazione_admin := some 1,
                          note_admin := none }],
          pagamenti := [], notifiche := [] }).toOption.map
        (fun s2 => (s2.richieste.find? (fun r => r.id == "r1")).map
          PaymentRequest.stato) = some (some REJECTED)) ∧
    ((approve_payment_request "r1" "p9" 10
        { richieste := [{ id := "r1", utente_id := "u1", importo := 50,
                          causale := "quota", scadenza := 100, note := none,
                          stato := "approvato", notification_id := none,
                          data_conferma_allievo := none, note_allievo := none,
                          data_approvazione_admin := some 1,
                          note_admin := none }],
          pagamenti := [], notifiche := [] }).toOption.map
        (fun x => (x.1.richieste.find? (fun r => r.id == "r1")).map
          PaymentRequest.stato) = some (some APPROVED)) ∧
    ((confirm_payment_request "r1" "u1" "done" 10
        { richieste := [{ id := "r1", utente_id := "u1", importo := 50,
                          causale := "quota", scadenza := 100, note := none,
                          stato := "approvato", notification_id := none,
                          data_conferma_allievo := none, note_allievo := none,
                          data_approvazione_admin := some 1,
                          note_admin := none }],
          pagamenti := [], notifiche := [] }).toOption.map
        (fun s2 => (s2.richieste.find? (fun r => r.id == "r1")).map
          PaymentRequest.stato) = some (some CONFIRMED)) := by
  have h := c2_transitions_always_overwrite
    { richieste := [{ id := "r1", utente_id := "u1", importo := 50,
                      causale := "quota", scadenza := 100, note := none,
                      stato := "approvato", notification_id := none,
                      data_conferma_allievo := none, note_allievo := none,
                      data_approvazione_admin := some 1, note_admin := none }],
      pagamenti := [], notifiche := [] }
    "r1" "late" "done" "p9" "u1" 10
    { id := "r1", utente_id := "u1", importo := 50,
      causale := "quota", scadenza := 100, note := none,
      stato := "approvato", notification_id := none,
      data_conferma_allievo := none, note_allievo := none,
      data_approvazione_admin := some 1, note_admin := none }
    rfl
  exact ⟨h.1, h.2.1, h.2.2 rfl⟩

/-- C5: approving an existing payment request appends exactly one new
Payment row to db.pagamenti, with status "pagato", a non-null paid-on
date stamped with the current time, and user, amount and description
taken from the request. -/
theorem c5_approve_materializes_paid_payment
    (s : Store) (request_id new_payment_id : String) (now : Int)
    (req : PaymentRequest)
    (hfind : s.richieste.find? (fun r => r.id == request_id) = some req) :
    (approve_payment_request request_id new_payment_id now s).toOption.map
        (fun x => x.1.pagamenti) =
      some (s.pagamenti ++
        [{ id := new_payment_id, utente_id := req.utente_id,
           tipo := "mensile", importo := req.importo,
           descrizione := req.causale, data_scadenza := req.scadenza,
           stato := "pagato", data_pagamento := some now,
           visibile_utente := true, data_creazione := now }]) := by
  simp only [approve_payment_request, hfind, Except.toOption, Option.map_some']

/-- C5 witness: approval at a concrete store with one pending request
and an empty payment collection. -/
theorem c5_approve_materializes_paid_payment_witness :
    (approve_payment_request "r1" "p9" 10
      { richieste := [{ id := "r1", utente_id := "u1", importo := 50,
                        causale := "quota", scadenza := 100, note := none,
                        stato := "confermato", notification_id := none,
                        data_conferma_allievo := some 5, note_allievo := none,
                        data_approvazione_admin := none, note_admin := none }],
        pagamenti := [], notifiche := [] }).toOption.map
      (fun x => x.1.pagamenti) =
    some [{ id := "p9", utente_id := "u1", tipo := "mensile", importo := 50,
            descrizione := "quota", data_scadenza := 100, stato := "pagato",
            data_pagamento := some 10, visibile_utente := true,
            data_creazione := 10 }] :=
  c5_approve_materializes_paid_payment
    { richieste := [{ id := "r1", utente_id := "u1", importo := 50,
                      causale := "quota", scadenza := 100, note := none,
                      stato := "confermato", notification_id := none,
                      data_conferma_allievo := some 5, note_allievo := none,
                      data_approvazione_admin := none, note_admin := none }],
      pagamenti := [], notifiche := [] }
    "r1" "p9" 10
    { id := "r1", utente_id := "u1", importo := 50,
      causale := "quota", scadenza := 100, note := none,
      stato := "confermato", notification_id := none,
      data_conferma_allievo := some 5, note_allievo := none,
      data_approvazione_admin := none, note_admin := none }
    rfl

end Musici.Req

namespace Musici.PayUpd

/-- The $set of update_payment never touches the payment id. -/
theorem applyBody_id (body : UpdateBody) (now : Int) (q : Payment) :
    (applyBody body now q).id = q.id := by
  rcases body with ⟨i, d, ds, st, v⟩
  unfold applyBody
  dsimp only
  cases i <;> cases d <;> cases ds <;> cases st <;> cases v <;>
    first
    | rfl
    | (dsimp only; split <;> rfl)

/-- A body carrying stato "pagato" makes update_payment stamp
data_pagamento with now. -/
theorem applyBody_paid (body : UpdateBody) (now : Int) (q : Payment)
    (hst : body.stato = some "pagato") :
    (applyBody body now q).data_pagamento = some now := by
  rcases body with ⟨i, d, ds, st, v⟩
  simp only at hst
  subst hst
  unfold applyBody
  dsimp only
  cases i <;> cases d <;> cases ds <;> cases v <;> rfl

/-- The $set of update_payment_status never touches the payment id. -/
theorem applyStatus_id (st was : String) (now : Int) (q : Payment) :
    (applyStatus st was now q).id = q.id := by
  unfold applyStatus
  dsimp only
  split <;> rfl

/-- When the stored status was not "pagato", update_payment_status with
"pagato" stamps data_pagamento with now. -/
theorem applyStatus_paid (was : String) (now : Int) (q : Payment)
    (hwas : (was == "pagato") = false) :
    (applyStatus "pagato" was now q).data_pagamento = some now := by
  unfold applyStatus
  dsimp only
  rw [show (("pagato" == "pagato") && !(was == "pagato")) = true by
    rw [hwas]; rfl]
  rfl

/-- C8: for a stored payment that is not already "pagato", an
update_payment whose body sets stato to "pagato" returns the payment
with data_pagamento stamped to the current time as part of the same
update, and update_payment_status with "pagato" does the same on the
stored document. -/
theorem c8_setting_paid_stamps_paid_date
    (pagamenti : List Payment) (pid : String) (now : Int) (p : Payment)
    (body : UpdateBody)
    (hfind : pagamenti.find? (fun q => q.id == pid) = some p)
    (hnot : p.stato ≠ "pagato") (hst : body.stato = some "pagato") :
    ((update_payment pid body now pagamenti).toOption.map
        (fun x => x.2.map Payment.data_pagamento)) =
      some (some (some now)) ∧
    ((update_payment_status pid "pagato" now pagamenti).toOption.map
        (fun l => (l.find? (fun q => q.id == pid)).map
          Payment.data_pagamento)) = some (some (some now)) := by
  have hkey1 : ∀ a : Payment, (a.id == pid) = true →
      ((applyBody body now a).id == pid) = true := by
    intro a ha
    rw [applyBody_id]
    exact ha
  have hkey2 : ∀ a : Payment, (a.id == pid) = true →
      ((applyStatus "pagato" p.stato now a).id == pid) = true := by
    intro a ha
    rw [applyStatus_id]
    exact ha
  constructor
  · simp only [update_payment, hfind, Except.toOption, Option.map_some']
    rw [Musici.find?_updateFirst (fun q => q.id == pid)
      (applyBody body now) hkey1 pagamenti, hfind]
    simp only [Option.map_some']
    rw [applyBody_paid body now p hst]
  · have hval : ((["in_attesa", "pagato", "scaduto", "annullato"] :
        List String).find? (fun v => v == "pagato")).isNone = false := rfl
    simp only [update_payment_status, hval, Bool.false_eq_true, if_false,
      hfind, Except.toOption, Option.map_some']
    rw [Musici.find?_updateFirst (fun q => q.id == pid)
      (applyStatus "pagato" p.stato now) hkey2 pagamenti, hfind]
    simp only [Option.map_some']
    rw [applyStatus_paid p.stato now p (beq_eq_false_iff_ne.mpr hnot)]

/-- C8 witness: a concrete pending payment updated to "pagato" through
both endpoints at time 99. -/
theorem c8_setting_paid_stamps_paid_date_witness :
    ((update_payment "p1"
        { importo := none, descrizione := none, data_scadenza := none,
          stato := some "pagato", visibile_utente := none } 99
        [{ id := "p1", utente_id := "u1", tipo := "mensile", importo := 150,
           descrizione := "Quota mensile 2025-07", data_scadenza := 100,
           stato := "in_attesa", data_pagamento := none,
           data_aggiornamento := none, visibile_utente := true }]).toOption.map
        (fun x => x.2.map Payment.data_pagamento)) =
      some (some (some 99)) ∧
    ((update_payment_status "p1" "pagato" 99
        [{ id := "p1", utente_id := "u1", tipo := "mensile", importo := 150,
           descrizione := "Quota mensile 2025-07", data_scadenza := 100,
           stato := "in_attesa", data_pagamento := none,
           data_aggiornamento := none, visibile_utente := true }]).toOption.map
        (fun l => (l.find? (fun q => q.id == "p1")).map
          Payment.data_pagamento)) = some (some (some 99)) :=
  c8_setting_paid_stamps_paid_date
    [{ id := "p1", utente_id := "u1", tipo := "mensile", importo := 150,
       descrizione := "Quota mensile 2025-07", data_scadenza := 100,
       stato := "in_attesa", data_pagamento := none,
       data_aggiornamento := none, visibile_utente := true }]
    "p1" 99
    { id := "p1", utente_id := "u1", tipo := "mensile", importo := 150,
      descrizione := "Quota mensile 2025-07", data_scadenza := 100,
      stato := "in_attesa", data_pagamento := none,
      data_aggiornamento := none, visibile_utente := true }
    { importo := none, descrizione := none, data_scadenza := none,
      stato := some "pagato", visibile_utente := none }
    rfl (by decide) rfl

end Musici.PayUpd

namespace Musici.Users

/-- deleted_count is 0 exactly when the query matches nothing. -/
theorem deleteFirst_snd_of_none (p : α → Bool) (l : List α)
    (h : l.find? p = none) : (Musici.deleteFirst p l).2 = 0 := by
  induction l with
  | nil => rfl
  | cons x xs ih =>
    cases hx : p x with
    | true => simp [List.find?_cons, hx] at h
    | false =>
      simp only [List.find?_cons, hx] at h
      simp only [Musici.deleteFirst, hx, Bool.false_eq_true, if_false]
      exact ih h

/-- deleted_count is 1 when the query matches something. -/
theorem deleteFirst_snd_of_some (p : α → Bool) (l : List α) (a : α)
    (h : l.find? p = some a) : (Musici.deleteFirst p l).2 = 1 := by
  induction l with
  | nil => simp at h
  | cons x xs ih =>
    cases hx : p x with
    | true => simp [Musici.deleteFirst, hx]
    | false =>
      simp only [List.find?_cons, hx] at h
      simp only [Musici.deleteFirst, hx, Bool.false_eq_true, if_false]
      exact ih h

/-- C9: deleting a user whose id has no backing row answers NotFound;
deleting an existing user removes exactly that user's session rows,
admin-access rows and both role-detail rows (rows of other users stay),
and leaves the historical presenze and pagamenti collections unchanged. -/
theorem c9_delete_user_cascade_and_frame (s : Store) (uid : String) :
    (s.utenti.find? (fun u => u.id == uid) = none →
      delete_user uid s = Except.error 404) ∧
    (∀ u, s.utenti.find? (fun u2 => u2.id == uid) = some u →
      ∃ s2, delete_user uid s = Except.ok s2 ∧
        (∀ x ∈ s2.sessioni, x.utente_id ≠ uid) ∧
        (∀ x ∈ s.sessioni, x.utente_id ≠ uid → x ∈ s2.sessioni) ∧
        (∀ x ∈ s2.accesso_amministrazione, x.utente_id ≠ uid) ∧
        (∀ x ∈ s.accesso_amministrazione, x.utente_id ≠ uid →
          x ∈ s2.accesso_amministrazione) ∧
        (∀ x ∈ s2.allievi_dettaglio, x.utente_id ≠ uid) ∧
        (∀ x ∈ s.allievi_dettaglio, x.utente_id ≠ uid →
          x ∈ s2.allievi_dettaglio) ∧
        (∀ x ∈ s2.insegnanti_dettaglio, x.utente_id ≠ uid) ∧
        (∀ x ∈ s.insegnanti_dettaglio, x.utente_id ≠ uid →
          x ∈ s2.insegnanti_dettaglio) ∧
        s2.presenze = s.presenze ∧ s2.pagamenti = s.pagamenti) := by
  constructor
  · intro hnone
    have h0 : (Musici.deleteFirst (fun u : DUser => u.id == uid) s.utenti).2 = 0 :=
      deleteFirst_snd_of_none _ _ hnone
    simp only [delete_user, h0]
    rfl
  · intro u hu
    have h1 : (Musici.deleteFirst (fun u2 : DUser => u2.id == uid) s.utenti).2 = 1 :=
      deleteFirst_snd_of_some _ _ u hu
    refine ⟨{ utenti := (Musici.deleteFirst (fun u2 : DUser => u2.id == uid) s.utenti).1,
              sessioni := s.sessioni.filter (fun x => !(x.utente_id == uid)),
              accesso_amministrazione :=
                s.accesso_amministrazione.filter (fun x => !(x.utente_id == uid)),
              allievi_dettaglio :=
                s.allievi_dettaglio.filter (fun x => !(x.utente_id == uid)),
              insegnanti_dettaglio :=
                s.insegnanti_dettaglio.filter (fun x => !(x.utente_id == uid)),
              presenze := s.presenze, pagamenti := s.pagamenti },
            ?_, ?_, ?_, ?_, ?_, ?_, ?_, ?_, ?_, rfl, rfl⟩
    · simp only [delete_user, h1]
      rfl
    all_goals
      first
      | (intro x hx
         have hpred := (List.mem_filter.mp hx).2
         simpa using hpred)
      | (intro x hx hne
         exact List.mem_filter.mpr ⟨hx, by simpa using hne⟩)

/-- C9 witness: a concrete store holding user u1 with one session, one
admin-access row, detail rows and history rows, plus rows of another
user u2 that must survive; deleting the unknown id zz answers 404. -/
theorem c9_delete_user_cascade_and_frame_witness :
    (delete_user "zz"
      { utenti := [{ id := "u1", email := "a@b.it", ruolo := "allievo", attivo := true }],
        sessioni := [{ utente_id := "u1", payload := "tok1" },
                     { utente_id := "u2", payload := "tok2" }],
        accesso_amministrazione := [{ utente_id := "u1", payload := "acc" }],
        allievi_dettaglio := [{ utente_id := "u1", payload := "det" }],
        insegnanti_dettaglio := [],
        presenze := [{ utente_id := "u1", payload := "2025-07-01" }],
        pagamenti := [{ utente_id := "u1", payload := "150" }] } =
      Except.error 404) ∧
    (∃ s2, delete_user "u1"
      { utenti := [{ id := "u1", email := "a@b.it", ruolo := "allievo", attivo := true }],
        sessioni := [{ utente_id := "u1", payload := "tok1" },
                     { utente_id := "u2", payload := "tok2" }],
        accesso_amministrazione := [{ utente_id := "u1", payload := "acc" }],
        allievi_dettaglio := [{ utente_id := "u1", payload := "det" }],
        insegnanti_dettaglio := [],
        presenze := [{ utente_id := "u1", payload := "2025-07-01" }],
        pagamenti := [{ utente_id := "u1", payload := "150" }] } =
        Except.ok s2 ∧
      (∀ x ∈ s2.sessioni, x.utente_id ≠ "u1") ∧
      s2.presenze = [{ utente_id := "u1", payload := "2025-07-01" }] ∧
      s2.pagamenti = [{ utente_id := "u1", payload := "150" }]) := by
  have h := c9_delete_user_cascade_and_frame
    { utenti := [{ id := "u1", email := "a@b.it", ruolo := "allievo", attivo := true }],
      sessioni := [{ utente_id := "u1", payload := "tok1" },
                   { utente_id := "u2", payload := "tok2" }],
      accesso_amministrazione := [{ utente_id := "u1", payload := "acc" }],
      allievi_dettaglio := [{ utente_id := "u1", payload := "det" }],
      insegnanti_dettaglio := [],
      presenze := [{ utente_id := "u1", payload := "2025-07-01" }],
      pagamenti := [{ utente_id := "u1", payload := "150" }] }
  have h404 := (c9_delete_user_cascade_and_frame
    { utenti := [{ id := "u1", email := "a@b.it", ruolo := "allievo", attivo := true }],
      sessioni := [{ utente_id := "u1", payload := "tok1" },
                   { utente_id := "u2", payload := "tok2" }],
      accesso_amministrazione := [{ utente_id := "u1", payload := "acc" }],
      allievi_dettaglio := [{ utente_id := "u1", payload := "det" }],
      insegnanti_dettaglio := [],
      presenze := [{ utente_id := "u1", payload := "2025-07-01" }],
      pagamenti := [{ utente_id := "u1", payload := "150" }] } "zz").1 rfl
  obtain ⟨s2, he, hsess, _, _, _, _, _, _, _, hpres, hpag⟩ :=
    (h "u1").2 { id := "u1", email := "a@b.it", ruolo := "allievo", attivo := true } rfl
  exact ⟨h404, s2, he, hsess, hpres, hpag⟩

end Musici.Users

namespace Musici.Slots

/-- C6: the claimed invariant is not maintained.  A teacher already has
a non-cancelled slot covering minutes [600, 660); create_lesson_slot for
the same teacher at minute 630 with duration 60 is accepted, because the
overlap query only catches an existing slot whose start lies inside the
new range — and the resulting store holds two non-cancelled slots of the
same teacher whose time ranges overlap. -/
theorem c6_create_accepts_overlapping_slot :
    create_lesson_slot "t1" "pianoforte" 630 60 "s2" ["t1"]
      [{ id := "s1", insegnante_id := "t1", strumento := "pianoforte",
         data := 600, durata := 60, stato := "disponibile",
         allievo_id := none }] =
      Except.ok
        [{ id := "s1", insegnante_id := "t1", strumento := "pianoforte",
           data := 600, durata := 60, stato := "disponibile",
           allievo_id := none },
         { id := "s2", insegnante_id := "t1", strumento := "pianoforte",
           data := 630, durata := 60, stato := "disponibile",
           allievo_id := none }] ∧
    ¬ noTeacherOverlap
        [{ id := "s1", insegnante_id := "t1", strumento := "pianoforte",
           data := 600, durata := 60, stato := "disponibile",
           allievo_id := none },
         { id := "s2", insegnante_id := "t1", strumento := "pianoforte",
           data := 630, durata := 60, stato := "disponibile",
           allievo_id := none }] := by
  constructor
  · rfl
  · decide

end Musici.Slots

namespace Musici.Overdue

/-- One full sweep never changes a payment id. -/
theorem mark_id (today : Int) (q : OPayment) : (mark today q).id = q.id := by
  unfold mark setScaduto
  split <;> rfl

/-- A payment that went through one sweep is never eligible again:
either it was transitioned (stato now "scaduto", excluded by the
snapshot query) or it was not eligible and is unchanged. -/
theorem eligible_mark_false (today : Int) (q : OPayment) :
    eligible today (mark today q) = false := by
  unfold mark
  cases he : eligible today q with
  | false => simpa using he
  | true =>
    have hpend : pendingPastDue today (setScaduto q) = false := by
      unfold pendingPastDue setScaduto
      rfl
    simp [eligible, hpend]

/-- The sweep loop commutes past a store element whose id differs from
every payment in the remaining snapshot. -/
theorem sweepStep_skip (today : Int) (todo : List OPayment) (y : OPayment)
    (h : ∀ p ∈ todo, (y.id == p.id) = false) :
    ∀ (n : Nat) (rest : List OPayment),
      todo.foldl (sweepStep today) (n, y :: rest) =
        ((todo.foldl (sweepStep today) (n, rest)).1,
         y :: (todo.foldl (sweepStep today) (n, rest)).2) := by
  induction todo with
  | nil => intro n rest; rfl
  | cons p todo ih =>
    intro n rest
    have hy : (y.id == p.id) = false := h p (List.mem_cons_self p todo)
    have hrest : ∀ q ∈ todo, (y.id == q.id) = false :=
      fun q hq => h q (List.mem_cons_of_mem p hq)
    rw [List.foldl_cons, List.foldl_cons]
    cases hp : pastTolerance today p with
    | true =>
      simp only [sweepStep, hp, if_true, Musici.updateFirst_cons, hy,
        Bool.false_eq_true, if_false]
      exact ih hrest (n + 1)
        (Musici.updateFirst (fun q => q.id == p.id) setScaduto rest)
    | false =>
      simp only [sweepStep, hp, Bool.false_eq_true, if_false]
      exact ih hrest n rest

/-- What one sweep computes, given distinct payment ids: the count of
eligible payments plus the starting count, and the store with every
eligible payment transitioned to "scaduto". -/
theorem sweep_spec (today : Int) :
    ∀ (l : List OPayment) (n : Nat), (l.map OPayment.id).Nodup →
      (l.filter (pendingPastDue today)).foldl (sweepStep today) (n, l) =
        (n + ((l.filter (pendingPastDue today)).filter
            (pastTolerance today)).length,
         l.map (mark today)) := by
  intro l
  induction l with
  | nil => intro n h; rfl
  | cons x rest ih =>
    intro n h
    rw [List.map_cons, List.nodup_cons] at h
    obtain ⟨hx, hrest⟩ := h
    have hids : ∀ p ∈ rest.filter (pendingPastDue today),
        (x.id == p.id) = false := by
      intro p hp
      have hmem : p ∈ rest := List.mem_of_mem_filter hp
      have : x.id ≠ p.id := fun he => hx (he ▸ List.mem_map_of_mem OPayment.id hmem)
      exact beq_eq_false_iff_ne.mpr this
    cases hpend : pendingPastDue today x with
    | false =>
      rw [List.filter_cons]
      simp only [hpend, Bool.false_eq_true, if_false]
      rw [sweepStep_skip today _ x hids n rest, ih n hrest]
      have hmx : mark today x = x := by
        simp [mark, eligible, hpend]
      simp [hmx]
    | true =>
      rw [List.filter_cons]
      simp only [hpend, if_true]
      rw [List.foldl_cons]
      cases hlate : pastTolerance today x with
      | true =>
        have hstep : sweepStep today (n, x :: rest) x =
            (n + 1, setScaduto x :: rest) := by
          simp [sweepStep, hlate, Musici.updateFirst_cons]
        rw [hstep]
        have hids2 : ∀ p ∈ rest.filter (pendingPastDue today),
            ((setScaduto x).id == p.id) = false := hids
        rw [sweepStep_skip today _ (setScaduto x) hids2 (n + 1) rest,
          ih (n + 1) hrest]
        have hmx : mark today x = setScaduto x := by
          simp [mark, eligible, hpend, hlate]
        rw [List.filter_cons]
        simp only [hlate, if_true, List.length_cons, List.map_cons, hmx]
        refine Prod.ext ?_ rfl
        simp only
        omega
      | false =>
        have hstep : sweepStep today (n, x :: rest) x = (n, x :: rest) := by
          simp [sweepStep, hlate]
        rw [hstep]
        rw [sweepStep_skip today _ x hids n rest, ih n hrest]
        have hmx : mark today x = x := by
          simp [mark, eligible, hlate]
        rw [List.filter_cons]
        simp only [hlate, Bool.false_eq_true, if_false, List.map_cons, hmx]

/-- The snapshot query never matches a payment the sweep has
transitioned. -/
theorem pendingPastDue_setScaduto (today : Int) (p : OPayment) :
    pendingPastDue today (setScaduto p) = false := rfl

/-- A payment still matched by the snapshot query after a sweep was left
untouched by that sweep. -/
theorem pend_mark_imp (today : Int) (q : OPayment)
    (h : pendingPastDue today (mark today q) = true) : mark today q = q := by
  unfold mark at h ⊢
  cases he : eligible today q with
  | false => simp [he]
  | true =>
    rw [he] at h
    simp only [if_true] at h
    rw [pendingPastDue_setScaduto] at h
    exact absurd h (by simp)

/-- A sweep never grows the set of payments the snapshot query matches. -/
theorem filter_pend_mark_le (today : Int) (l : List OPayment) :
    ((l.map (mark today)).filter (pendingPastDue today)).length ≤
      (l.filter (pendingPastDue today)).length := by
  induction l with
  | nil => exact Nat.le_refl 0
  | cons x rest ih =>
    rw [List.map_cons, List.filter_cons, List.filter_cons]
    cases hp : pendingPastDue today (mark today x) with
    | true =>
      have hmx : mark today x = x := pend_mark_imp today x hp
      rw [hmx] at hp ⊢
      simp only [hp, if_true, List.length_cons]
      exact Nat.succ_le_succ ih
    | false =>
      simp only [hp, Bool.false_eq_true, if_false]
      cases hx : pendingPastDue today x with
      | true =>
        simp only [hx, if_true, List.length_cons]
        exact Nat.le_trans ih (Nat.le_succ _)
      | false =>
        simp only [hx, Bool.false_eq_true, if_false]
        exact ih

/-- The sweep loop over a processed prefix of the store, when every
prefix payment is past tolerance and prefix ids are distinct: each
prefix payment is transitioned and counted, the rest of the store is
untouched. -/
theorem sweep_prefix (today : Int) :
    ∀ (A B : List OPayment) (n : Nat),
      (A.map OPayment.id).Nodup →
      (∀ p ∈ A, pastTolerance today p = true) →
      A.foldl (sweepStep today) (n, A ++ B) =
        (n + A.length, A.map setScaduto ++ B) := by
  intro A
  induction A with
  | nil => intro B n _ _; simp
  | cons x A ih =>
    intro B n hnd htol
    rw [List.map_cons, List.nodup_cons] at hnd
    obtain ⟨hx, hnd⟩ := hnd
    have hids : ∀ p ∈ A, (x.id == p.id) = false := by
      intro p hp
      exact beq_eq_false_iff_ne.mpr
        (fun he => hx (he ▸ List.mem_map_of_mem OPayment.id hp))
    rw [List.cons_append, List.foldl_cons]
    have hstep : sweepStep today (n, x :: (A ++ B)) x =
        (n + 1, setScaduto x :: (A ++ B)) := by
      simp [sweepStep, htol x (List.mem_cons_self x A), Musici.updateFirst_cons]
    rw [hstep]
    have hids2 : ∀ p ∈ A, ((setScaduto x).id == p.id) = false := hids
    rw [sweepStep_skip today A (setScaduto x) hids2 (n + 1) (A ++ B)]
    rw [ih B (n + 1) hnd (fun p hp => htol p (List.mem_cons_of_mem x hp))]
    rw [List.map_cons, List.cons_append, List.length_cons]
    refine Prod.ext ?_ rfl
    simp only
    omega

/-- C4 amended: the sweep is idempotent whenever at most 1000 payments
match the pending-past-due query, so that the .to_list(1000) snapshot
cap is not hit: with distinct payment ids, the second run at the same
instant updates 0 payments and leaves the store unchanged, because
everything the first run transitioned is excluded by the pending-status
filter and everything it left pending is inside its tolerance window.
(Beyond 1000 matching payments the first run processes only the first
1000 and the second run updates leftovers, as the counterexample
shows.) -/
theorem c4_overdue_sweep_idempotent_within_cap (today : Int)
    (pagamenti : List OPayment)
    (h : (pagamenti.map OPayment.id).Nodup)
    (hcap : (pagamenti.filter (pendingPastDue today)).length ≤ 1000) :
    (update_overdue_payments today
        (update_overdue_payments today pagamenti).2).1 = 0 ∧
    (update_overdue_payments today
        (update_overdue_payments today pagamenti).2).2 =
      (update_overdue_payments today pagamenti).2 := by
  have htake : (pagamenti.filter (pendingPastDue today)).take 1000 =
      pagamenti.filter (pendingPastDue today) :=
    List.take_of_length_le hcap
  have h1 : update_overdue_payments today pagamenti =
      (0 + ((pagamenti.filter (pendingPastDue today)).filter
          (pastTolerance today)).length,
       pagamenti.map (mark today)) := by
    unfold update_overdue_payments
    rw [htake]
    exact sweep_spec today pagamenti 0 h
  have hs1 : (update_overdue_payments today pagamenti).2 =
      pagamenti.map (mark today) := by rw [h1]
  have hnodup1 : ((pagamenti.map (mark today)).map OPayment.id).Nodup := by
    have hm : (pagamenti.map (mark today)).map OPayment.id =
        pagamenti.map OPayment.id := by
      rw [List.map_map]
      have hfun : (OPayment.id ∘ mark today) = OPayment.id :=
        funext (fun q => mark_id today q)
      rw [hfun]
    rw [hm]
    exact h
  have hcap1 : ((pagamenti.map (mark today)).filter
      (pendingPastDue today)).length ≤ 1000 :=
    Nat.le_trans (filter_pend_mark_le today pagamenti) hcap
  have htake1 : ((pagamenti.map (mark today)).filter
        (pendingPastDue today)).take 1000 =
      (pagamenti.map (mark today)).filter (pendingPastDue today) :=
    List.take_of_length_le hcap1
  have h2 : update_overdue_payments today (pagamenti.map (mark today)) =
      (0 + (((pagamenti.map (mark today)).filter
            (pendingPastDue today)).filter (pastTolerance today)).length,
       (pagamenti.map (mark today)).map (mark today)) := by
    unfold update_overdue_payments
    rw [htake1]
    exact sweep_spec today (pagamenti.map (mark today)) 0 hnodup1
  have hel : ∀ q ∈ pagamenti.map (mark today), eligible today q = false := by
    intro q hq
    obtain ⟨p, _, rfl⟩ := List.mem_map.mp hq
    exact eligible_mark_false today p
  have hlen : (((pagamenti.map (mark today)).filter
      (pendingPastDue today)).filter (pastTolerance today)).length = 0 := by
    rw [List.length_eq_zero]
    rw [List.filter_eq_nil_iff]
    intro a ha
    have hmem : a ∈ pagamenti.map (mark today) := List.mem_of_mem_filter ha
    have hpend : pendingPastDue today a = true := List.of_mem_filter ha
    have : eligible today a = false := hel a hmem
    unfold eligible at this
    rw [hpend, Bool.true_and] at this
    simp [this]
  have hmap : (pagamenti.map (mark today)).map (mark today) =
      pagamenti.map (mark today) := by
    have : ∀ q ∈ pagamenti.map (mark today), mark today q = q := by
      intro q hq
      have := hel q hq
      simp [mark, this]
    calc (pagamenti.map (mark today)).map (mark today)
        = (pagamenti.map (mark today)).map id := List.map_congr_left this
      _ = pagamenti.map (mark today) := List.map_id _
  rw [hs1, h2, hlen, hmap]
  exact ⟨rfl, rfl⟩

/-- C4 witness: a concrete store with one pending payment past its
tolerant due date and one pending payment not yet due — two pending
payments, well under the 1000-document snapshot cap — swept twice at
time 10. -/
theorem c4_overdue_sweep_idempotent_within_cap_witness :
    (update_overdue_payments 10
        (update_overdue_payments 10
          [{ id := "p1", stato := "in_attesa", data_scadenza := 0,
             tolleranza_giorni := some 0 },
           { id := "p2", stato := "in_attesa", data_scadenza := 50,
             tolleranza_giorni := none }]).2).1 = 0 ∧
    (update_overdue_payments 10
        (update_overdue_payments 10
          [{ id := "p1", stato := "in_attesa", data_scadenza := 0,
             tolleranza_giorni := some 0 },
           { id := "p2", stato := "in_attesa", data_scadenza := 50,
             tolleranza_giorni := none }]).2).2 =
      (update_overdue_payments 10
        [{ id := "p1", stato := "in_attesa", data_scadenza := 0,
           tolleranza_giorni := some 0 },
         { id := "p2", stato := "in_attesa", data_scadenza := 50,
           tolleranza_giorni := none }]).2 :=
  c4_overdue_sweep_idempotent_within_cap 10
    [{ id := "p1", stato := "in_attesa", data_scadenza := 0,
       tolleranza_giorni := some 0 },
     { id := "p2", stato := "in_attesa", data_scadenza := 50,
       tolleranza_giorni := none }]
    (by decide) (by decide)

/-- A store of 1000 eligible payments followed by one more eligible
payment: the first sweep processes only the 1000-document snapshot, so
the leftover payment is still pending past tolerance and the second
sweep updates it, answering updated_count = 1. -/
theorem cap_leftover (today : Int) (A : List OPayment) (b : OPayment)
    (hnd : (A.map OPayment.id).Nodup)
    (hlenA : A.length = 1000)
    (hpendA : ∀ p ∈ A, pendingPastDue today p = true)
    (htolA : ∀ p ∈ A, pastTolerance today p = true)
    (hpendb : pendingPastDue today b = true)
    (htolb : pastTolerance today b = true) :
    (update_overdue_payments today
      (update_overdue_payments today (A ++ [b])).2).1 = 1 := by
  have hfilter : (A ++ [b]).filter (pendingPastDue today) = A ++ [b] := by
    rw [List.filter_eq_self]
    intro p hp
    rcases List.mem_append.mp hp with h1 | h2
    · exact hpendA p h1
    · rw [List.mem_singleton.mp h2]
      exact hpendb
  have htake : (A ++ [b]).take 1000 = A := by
    rw [← hlenA]
    exact List.take_left A [b]
  have h1 : update_overdue_payments today (A ++ [b]) =
      (0 + A.length, A.map setScaduto ++ [b]) := by
    unfold update_overdue_payments
    rw [hfilter, htake]
    exact sweep_prefix today A [b] 0 hnd htolA
  have hfilterA : (A.map setScaduto).filter (pendingPastDue today) = [] := by
    rw [List.filter_eq_nil_iff]
    intro q hq
    obtain ⟨p, _, rfl⟩ := List.mem_map.mp hq
    rw [pendingPastDue_setScaduto]
    simp
  have hfilter2 : (A.map setScaduto ++ [b]).filter (pendingPastDue today) =
      [b] := by
    rw [List.filter_append, hfilterA, List.nil_append, List.filter_cons]
    simp [hpendb]
  have h2 : (update_overdue_payments today (A.map setScaduto ++ [b])).1 = 1 := by
    unfold update_overdue_payments
    rw [hfilter2]
    have htake2 : ([b] : List OPayment).take 1000 = [b] :=
      List.take_of_length_le (by simp)
    rw [htake2]
    simp [List.foldl_cons, sweepStep, htolb]
  rw [h1]
  exact h2

/-- C4 counterexample: the claimed store-independent idempotence fails
at a concrete store of 1001 pending payments (distinct ids, all past
their tolerant due date at time 10): the first sweep transitions only
the 1000 snapshot documents, and the second sweep updates the leftover
payment, so its updated_count is 1, not 0, and the store changes. -/
theorem c4_snapshot_cap_defeats_idempotence :
    (update_overdue_payments 10
      (update_overdue_payments 10
        ((List.range 1001).map (fun i =>
          ({ id := String.mk (List.replicate i 'a'), stato := "in_attesa",
             data_scadenza := 0,
             tolleranza_giorni := some 0 } : OPayment)))).2).1 = 1 := by
  have hinj : Function.Injective
      (fun i : Nat => String.mk (List.replicate i 'a')) := by
    intro i j hij
    have h2 : List.replicate i 'a' = List.replicate j 'a' :=
      congrArg String.data hij
    have h3 := congrArg List.length h2
    simpa using h3
  have hsplit : (List.range 1001).map (fun i =>
        ({ id := String.mk (List.replicate i 'a'), stato := "in_attesa",
           data_scadenza := 0,
           tolleranza_giorni := some 0 } : OPayment)) =
      ((List.range 1000).map (fun i =>
        ({ id := String.mk (List.replicate i 'a'), stato := "in_attesa",
           data_scadenza := 0,
           tolleranza_giorni := some 0 } : OPayment))) ++
      [{ id := String.mk (List.replicate 1000 'a'), stato := "in_attesa",
         data_scadenza := 0, tolleranza_giorni := some 0 }] := by
    rw [List.range_succ, List.map_append]
    rfl
  rw [hsplit]
  apply cap_leftover
  · rw [List.map_map]
    exact List.Nodup.map hinj (List.nodup_range 1000)
  · simp
  · intro p hp
    obtain ⟨i, _, rfl⟩ := List.mem_map.mp hp
    rfl
  · intro p hp
    obtain ⟨i, _, rfl⟩ := List.mem_map.mp hp
    rfl
  · rfl
  · rfl

end Musici.Overdue

namespace Musici.Monthly

/-- A string always matches the $regex pattern given by its own suffix:
the default description "Quota mensile " ++ mese contains mese. -/
theorem substrB_append_right (a b : String) : substrB b (a ++ b) = true := by
  unfold substrB
  rw [List.any_eq_true]
  have happ : (a ++ b).toList = a.toList ++ b.toList := by
    show (a ++ b).data = a.data ++ b.data
    exact String.data_append a b
  refine ⟨a.toList.length, ?_, ?_⟩
  · rw [List.mem_range, happ, List.length_append]
    omega
  · rw [happ, List.drop_left, List.take_length]
    exact beq_self_eq_true b.toList

/-- The duplicate guard in terms of an actual matching payment row. -/
theorem existsMonthlyFor_iff (mese sid : String) (P : List MPayment) :
    existsMonthlyFor mese sid P = true ↔
      ∃ p ∈ P, (p.utente_id == sid && p.tipo == "mensile" &&
        substrB mese p.descrizione) = true := by
  unfold existsMonthlyFor
  constructor
  · intro h
    obtain ⟨p, hp⟩ := Option.isSome_iff_exists.mp h
    have hmem := List.mem_of_find?_eq_some hp
    have hpred := List.find?_some hp
    exact ⟨p, hmem, hpred⟩
  · intro ⟨p, hp, hpred⟩
    induction P with
    | nil => simp at hp
    | cons x xs ih =>
      rcases List.mem_cons.mp hp with rfl | hmem
      · simp [List.find?_cons, hpred]
      · cases hx : (x.utente_id == sid && x.tipo == "mensile" &&
          substrB mese x.descrizione) with
        | true => simp [List.find?_cons, hx]
        | false =>
          rw [List.find?_cons, hx]
          exact ih hmem

/-- The per-student loop body only ever appends to the store. -/
theorem monthlyStep_store (importo : ℚ) (mese d : String) (now : Int)
    (mkId : Nat → String) (acc : Nat × List MPayment) (student : Student) :
    ∃ t, (monthlyStep importo mese d now mkId acc student).2 = acc.2 ++ t := by
  unfold monthlyStep
  split
  · exact ⟨[], (List.append_nil _).symm⟩
  · exact ⟨[newMonthlyPayment importo mese d now (mkId acc.1) student.id], rfl⟩

/-- The whole loop only ever appends to the store. -/
theorem monthlyFold_store (importo : ℚ) (mese d : String) (now : Int)
    (mkId : Nat → String) :
    ∀ (students : List Student) (acc : Nat × List MPayment),
      ∃ t, (students.foldl (monthlyStep importo mese d now mkId) acc).2 =
        acc.2 ++ t := by
  intro students
  induction students with
  | nil => intro acc; exact ⟨[], (List.append_nil _).symm⟩
  | cons x students ih =>
    intro acc
    obtain ⟨t1, h1⟩ := monthlyStep_store importo mese d now mkId acc x
    obtain ⟨t2, h2⟩ := ih (monthlyStep importo mese d now mkId acc x)
    rw [List.foldl_cons]
    exact ⟨t1 ++ t2, by rw [h2, h1, List.append_assoc]⟩

/-- When the description matches the month pattern, every student the
loop has processed ends up with a matching payment row in the store. -/
theorem monthlyFold_guard (importo : ℚ) (mese d : String) (now : Int)
    (mkId : Nat → String) (hsub : substrB mese d = true) :
    ∀ (students : List Student) (acc : Nat × List MPayment),
      ∀ s ∈ students,
        existsMonthlyFor mese s.id
          (students.foldl (monthlyStep importo mese d now mkId) acc).2 =
          true := by
  intro students
  induction students with
  | nil => intro acc s hs; simp at hs
  | cons x students ih =>
    intro acc s hs
    rw [List.foldl_cons]
    rcases List.mem_cons.mp hs with rfl | hmem
    · have hafter : existsMonthlyFor mese s.id
          (monthlyStep importo mese d now mkId acc s).2 = true := by
        unfold monthlyStep
        cases hg : existsMonthlyFor mese s.id acc.2 with
        | true =>
          simp only [hg, if_true]
        | false =>
          simp only [hg, Bool.false_eq_true, if_false]
          rw [existsMonthlyFor_iff]
          refine ⟨newMonthlyPayment importo mese d now (mkId acc.1) s.id,
            List.mem_append_right _ (List.mem_cons_self _ _), ?_⟩
          simp [newMonthlyPayment, hsub]
      obtain ⟨t, ht⟩ := monthlyFold_store importo mese d now mkId students
        (monthlyStep importo mese d now mkId acc s)
      rw [existsMonthlyFor_iff] at hafter ⊢
      obtain ⟨p, hp, hpred⟩ := hafter
      rw [ht]
      exact ⟨p, List.mem_append_left _ hp, hpred⟩
    · exact ih (monthlyStep importo mese d now mkId acc x) s hmem

/-- Every row present after the loop is either an original row or a
fresh monthly row: tipo "mensile", stato "in_attesa", due day 7 of the
month at 23:59:59, and the loop's description. -/
theorem monthlyFold_shape (importo : ℚ) (mese d : String) (now : Int)
    (mkId : Nat → String) :
    ∀ (students : List Student) (acc : Nat × List MPayment) (p : MPayment),
      p ∈ (students.foldl (monthlyStep importo mese d now mkId) acc).2 →
      p ∈ acc.2 ∨
        (p.tipo = "mensile" ∧ p.stato = "in_attesa" ∧
         p.data_scadenza = mese ++ "-07T23:59:59" ∧ p.descrizione = d) := by
  intro students
  induction students with
  | nil => intro acc p hp; exact Or.inl hp
  | cons x students ih =>
    intro acc p hp
    rw [List.foldl_cons] at hp
    rcases ih (monthlyStep importo mese d now mkId acc x) p hp with hin | hshape
    · unfold monthlyStep at hin
      cases hg : existsMonthlyFor mese x.id acc.2 with
      | true =>
        rw [hg] at hin
        simp only [if_true] at hin
        exact Or.inl hin
      | false =>
        rw [hg] at hin
        simp only [Bool.false_eq_true, if_false] at hin
        rcases List.mem_append.mp hin with h1 | h2
        · exact Or.inl h1
        · have hp2 := List.mem_singleton.mp h2
          subst hp2
          exact Or.inr ⟨rfl, rfl, rfl, rfl⟩
    · exact Or.inr hshape

/-- When the guard already holds for every student, the loop is a
no-op. -/
theorem monthlyFold_noop (importo : ℚ) (mese d : String) (now : Int)
    (mkId : Nat → String) :
    ∀ (students : List Student) (acc : Nat × List MPayment),
      (∀ s ∈ students, existsMonthlyFor mese s.id acc.2 = true) →
      students.foldl (monthlyStep importo mese d now mkId) acc = acc := by
  intro students
  induction students with
  | nil => intro acc _; rfl
  | cons x students ih =>
    intro acc h
    rw [List.foldl_cons]
    have hstep : monthlyStep importo mese d now mkId acc x = acc := by
      unfold monthlyStep
      rw [h x (List.mem_cons_self x students)]
      simp
    rw [hstep]
    exact ih acc (fun s hs => h s (List.mem_cons_of_mem x hs))

/-- With no description in the body, the endpoint runs the loop with the
default description. -/
theorem create_monthly_payments_none_eq (importo : ℚ) (mese : String)
    (now : Int) (mkId : Nat → String) (utenti : List Student)
    (pagamenti : List MPayment) :
    create_monthly_payments importo mese none now mkId utenti pagamenti =
      (utenti.filter (fun u => u.ruolo == "allievo" && u.attivo)).foldl
        (monthlyStep importo mese ("Quota mensile " ++ mese) now mkId)
        (0, pagamenti) := rfl

/-- C3 counterexample: with a caller-supplied description that does not
contain the month string, the duplicate guard never matches the rows the
first call created, so a second identical call for the same month
creates one payment per active student again instead of none. -/
theorem c3_custom_description_defeats_guard :
    (create_monthly_payments 150 "2025-07" (some "Acconto") 0 (fun _ => "x")
      [{ id := "s1", ruolo := "allievo", attivo := true }] []).1 = 1 ∧
    (create_monthly_payments 150 "2025-07" (some "Acconto") 0 (fun _ => "x")
      [{ id := "s1", ruolo := "allievo", attivo := true }]
      (create_monthly_payments 150 "2025-07" (some "Acconto") 0 (fun _ => "x")
        [{ id := "s1", ruolo := "allievo", attivo := true }] []).2).1 = 1 := by
  exact ⟨rfl, rfl⟩

/-- C3 amended: a monthly payment is created for an active student only
when no stored payment matches that student, the monthly type and the
month tag, and the created rows are pending with due date day 7 of the
month at 23:59:59; when the description contains the month tag — in
particular the default description used when none is supplied — a second
identical call creates no payment for any student and leaves the store
unchanged.  (With a custom description lacking the month string the
second call duplicates, as the counterexample shows.) -/
theorem c3_default_description_idempotent (importo : ℚ) (mese : String)
    (now now2 : Int) (mkId mkId2 : Nat → String)
    (utenti : List Student) (pagamenti : List MPayment) :
    (∀ p ∈ (create_monthly_payments importo mese none now mkId
        utenti pagamenti).2,
      p ∈ pagamenti ∨
        (p.tipo = "mensile" ∧ p.stato = "in_attesa" ∧
         p.data_scadenza = mese ++ "-07T23:59:59" ∧
         p.descrizione = "Quota mensile " ++ mese)) ∧
    create_monthly_payments importo mese none now2 mkId2 utenti
        (create_monthly_payments importo mese none now mkId
          utenti pagamenti).2 =
      (0, (create_monthly_payments importo mese none now mkId
          utenti pagamenti).2) := by
  constructor
  · intro p hp
    rw [create_monthly_payments_none_eq] at hp
    exact monthlyFold_shape importo mese ("Quota mensile " ++ mese) now mkId
      (utenti.filter (fun u => u.ruolo == "allievo" && u.attivo))
      (0, pagamenti) p hp
  · rw [create_monthly_payments_none_eq, create_monthly_payments_none_eq]
    apply monthlyFold_noop
    intro s hs
    exact monthlyFold_guard importo mese ("Quota mensile " ++ mese) now mkId
      (substrB_append_right "Quota mensile " mese)
      (utenti.filter (fun u => u.ruolo == "allievo" && u.attivo))
      (0, pagamenti) s hs

/-- C3 witness: one active student, empty store, month 2025-07 with the
default description: the first call creates the pending day-7 payment
and the second call is the identity with created count 0. -/
theorem c3_default_description_idempotent_witness :
    (({ id := "x", utente_id := "s1", tipo := "mensile", importo := 150,
        descrizione := "Quota mensile " ++ "2025-07",
        data_scadenza := "2025-07" ++ "-07T23:59:59", stato := "in_attesa",
        data_pagamento := none, tolleranza_giorni := 0,
        visibile_utente := true, data_creazione := 0 } : MPayment) ∈
        ([] : List MPayment) ∨
      (("mensile" : String) = "mensile" ∧ ("in_attesa" : String) = "in_attesa" ∧
       ("2025-07" ++ "-07T23:59:59" : String) = "2025-07" ++ "-07T23:59:59" ∧
       ("Quota mensile " ++ "2025-07" : String) = "Quota mensile " ++ "2025-07")) ∧
    create_monthly_payments 150 "2025-07" none 0 (fun _ => "x")
        [{ id := "s1", ruolo := "allievo", attivo := true }]
        (create_monthly_payments 150 "2025-07" none 0 (fun _ => "x")
          [{ id := "s1", ruolo := "allievo", attivo := true }] []).2 =
      (0, (create_monthly_payments 150 "2025-07" none 0 (fun _ => "x")
          [{ id := "s1", ruolo := "allievo", attivo := true }] []).2) := by
  have h := c3_default_description_idempotent 150 "2025-07" 0 0
    (fun _ => "x") (fun _ => "x")
    [{ id := "s1", ruolo := "allievo", attivo := true }] []
  refine ⟨?_, h.2⟩
  exact h.1
    { id := "x", utente_id := "s1", tipo := "mensile", importo := 150,
      descrizione := "Quota mensile " ++ "2025-07",
      data_scadenza := "2025-07" ++ "-07T23:59:59", stato := "in_attesa",
      data_pagamento := none, tolleranza_giorni := 0,
      visibile_utente := true, data_creazione := 0 }
    (by rw [create_monthly_payments_none_eq]; decide)

end Musici.Monthly
